import Mathlib

/-!
Verification development for the skoll message toolkit.

This file shallowly embeds the core of the repository in Lean 4 and proves
the frozen claims about it.  The embedding covers:

* the Python value universe needed by the validation pipeline
  (`src/skoll/result.py`, `src/skoll/errors.py`);
* the `Result` algebra and its `combine` aggregator (`result.py`);
* the error taxonomy values used by the pipeline (`errors.py`);
* the schema construction engine for a single field
  (`_SchemaItem.create` / `_SchemaItem._create` in `src/skoll/domain/base.py`);
* the message identity model (`Message.__eq__` / `__hash__` / `from_raw`
  in `src/skoll/domain/message.py` and `src/skoll/domain/messaging.py`);
* the dependency-resolution engine (`resolve` / `call_with_dependencies`
  in `src/skoll/utils/dep_injection.py`), with provider invocations and
  scoped-resource acquisition/release made observable through an event log;
* the dispatch pipeline (`run_callback` / `get_message` in
  `src/skoll/infras/mediator/utils.py` and `src/skoll/nats.py`) and the
  completion policy of `wrap_callback` (`src/skoll/nats.py`).

Machine-level aspects that the claims do not depend on are modelled at the
usual shallow level: Python floats are restricted to integral payloads
(the pipeline only ever performs `isinstance` checks and constructor
coercions on them), Python's string hash is modelled as injective (equal
strings hash equal; collisions between distinct short id strings are a
hash-table artefact outside the data model), and exceptions are explicit
`Except` values.
-/

namespace Skoll

/-! ## Python value universe

The untyped values flowing through the validation pipeline: `None`,
booleans, ints, floats, strings, lists and string-keyed dicts.  Dicts are
insertion-ordered association lists, matching Python dict semantics for the
duplicate-free dicts the pipeline manipulates. -/

inductive Value where
  | null : Value
  | bool : Bool → Value
  | int : Int → Value
  | float : Int → Value
  | str : String → Value
  | list : List Value → Value
  | dict : List (String × Value) → Value

/-- `x is None` -/
def isNull : Value → Bool
  | .null => true
  | _ => false

/-- `d.get(k)` on a Python dict: the stored value, or `None` when the key is
absent (first match; the embedded dicts are duplicate-free). -/
def dictGet (kvs : List (String × Value)) (k : String) : Value :=
  match kvs.find? (fun kv => kv.1 == k) with
  | some kv => kv.2
  | none => .null

/-! ## Error values (`src/skoll/errors.py`)

`Error` carries `code`, `field`, `status`, `detail`, a list of sub-errors,
`hints` and `debug` maps.  The subclass constructors below freeze exactly
the fields each `attrs` subclass pins with `init=False`. -/

inductive Error where
  | mk : String → Option String → Option Nat → String →
      List Error → List (String × Value) → List (String × Value) → Error

def Error.code : Error → String
  | .mk c _ _ _ _ _ _ => c

def Error.field : Error → Option String
  | .mk _ f _ _ _ _ _ => f

def Error.status : Error → Option Nat
  | .mk _ _ s _ _ _ _ => s

def Error.detail : Error → String
  | .mk _ _ _ d _ _ _ => d

def Error.errors : Error → List Error
  | .mk _ _ _ _ es _ _ => es

def Error.hints : Error → List (String × Value)
  | .mk _ _ _ _ _ h _ => h

def Error.debug : Error → List (String × Value)
  | .mk _ _ _ _ _ _ dbg => dbg

/-- The in-place retag `res.err.field = self.key` performed at
`src/skoll/domain/base.py` line 117, expressed as the value it leaves
behind. -/
def Error.setField (e : Error) (f : Option String) : Error :=
  match e with
  | .mk c _ s d es h dbg => .mk c f s d es h dbg

def missingFieldDetail : String := "This field is required to process your request"

/-- `MissingField(field=...)`: code, hints, debug, status and detail are
`init=False` in the source. -/
def MissingField (fld : Option String) : Error :=
  .mk "missing_field" fld none missingFieldDetail [] [] []

def invalidFieldDetail : String := "This field has invalid data, see hints for more details"

/-- `InvalidField(field=..., hints=..., errors=...)`: code, debug, status
and detail are `init=False` in the source. -/
def InvalidField (fld : Option String) (hints : List (String × Value)) (errors : List Error) : Error :=
  .mk "invalid_field" fld none invalidFieldDetail errors hints []

def validationFailedDetail : String :=
  "Your request contains invalid or missing data. Check hints for more details"

/-- `ValidationFailed(errors=...)`: field, debug, code, status and detail
are `init=False` in the source; hints defaults to `{}`. -/
def ValidationFailed (errors : List Error) : Error :=
  .mk "validation_failed" none (some 400) validationFailedDetail errors [] []

def internalErrorDetail : String := "An unexpected error occurred. Please try again later."

/-- `InternalError.from_exception(exc, extra)`: `debug = {**extra,
**{"message": str(exc)}}`; the caller-supplied debug entries come first and
a `"message"` entry from `extra` is overwritten by `str(exc)`. -/
def InternalErrorFrom (msg : String) (extra : List (String × Value)) : Error :=
  .mk "internal_error" none (some 500) internalErrorDetail [] []
    ((extra.filter (fun kv => kv.1 != "message")) ++ [("message", .str msg)])

/-! ### Error serialization (`Error.serialize` with no `exclude`/`extra`)

`serialize` builds `{"code", "field", "detail", "debug", "hints",
"errors"}` (note: `status` is not serialized) then applies `sanitize_dict`,
which drops `None`-valued entries and recurses into dict values (but not
into lists; each recursive `sub.serialize()` sanitizes itself). -/

mutual

def sanitizeVal : Value → Value
  | .dict kvs => .dict (sanitizeKVs kvs)
  | v => v

def sanitizeKVs : List (String × Value) → List (String × Value)
  | [] => []
  | (k, v) :: rest =>
      if isNull v then sanitizeKVs rest else (k, sanitizeVal v) :: sanitizeKVs rest

end

def optStrVal : Option String → Value
  | some s => .str s
  | none => .null

mutual

def Error.serialize : Error → Value
  | .mk c f _s d errs h dbg =>
      .dict (sanitizeKVs
        [("code", .str c), ("field", optStrVal f), ("detail", .str d),
         ("debug", .dict dbg), ("hints", .dict h),
         ("errors", .list (serializeErrors errs))])

def serializeErrors : List Error → List Value
  | [] => []
  | e :: es => Error.serialize e :: serializeErrors es

end

/-! ## Result algebra (`src/skoll/result.py`) -/

inductive Res where
  | ok : Value → Res
  | fail : Error → Res

/-- Python exceptions crossing an embedded boundary: the `TypeError`
raised for an unresolvable dependency parameter or a bad keyword spread, a
raised domain `Error`, or any other exception. -/
inductive PyExc where
  | typeError : String → PyExc
  | domainError : Error → PyExc
  | otherExc : String → PyExc

/-- `is_ok` -/
def isOkB : Res → Bool
  | .ok _ => true
  | .fail _ => false

/-- The success payload of a result, when present. -/
def okValue : Res → Option Value
  | .ok v => some v
  | .fail _ => none

/-- The error of a result, when present. -/
def errOf : Res → Option Error
  | .ok _ => none
  | .fail e => some e

/-- `combine` on a sequence of results: every element is inspected, the
successes keep their values in order, and a non-empty failure list becomes
one aggregated `InvalidField` whose `errors` are the failures in order. -/
def combineList (results : List Res) : Res :=
  let values := results.filterMap okValue
  let errs := results.filterMap errOf
  if errs.isEmpty then .ok (.list values) else .fail (InvalidField none [] errs)

/-- `combine` on a string-keyed mapping of results (insertion-ordered). -/
def combineDict (results : List (String × Res)) : Res :=
  let values := results.filterMap (fun kr => (okValue kr.2).map (fun v => (kr.1, v)))
  let errs := results.filterMap (fun kr => errOf kr.2)
  if errs.isEmpty then .ok (.dict values) else .fail (InvalidField none [] errs)

theorem filterMap_errOf_isEmpty (rs : List Res) :
    (rs.filterMap errOf).isEmpty = rs.all isOkB := by
  induction rs with
  | nil => rfl
  | cons r rs ih =>
      cases r with
      | ok v => simpa [List.filterMap_cons, errOf, isOkB] using ih
      | fail e => simp [List.filterMap_cons, errOf, isOkB]

theorem filterMap_errOf_length (rs : List Res) :
    (rs.filterMap errOf).length = rs.countP (fun r => !isOkB r) := by
  induction rs with
  | nil => rfl
  | cons r rs ih =>
      cases r with
      | ok v => simpa [List.filterMap_cons, errOf, isOkB, List.countP_cons] using ih
      | fail e => simp [List.filterMap_cons, errOf, isOkB, List.countP_cons, ih]

theorem snd_filterMap_errOf (ds : List (String × Res)) :
    ds.filterMap (fun kr => errOf kr.2) = (ds.map Prod.snd).filterMap errOf := by
  induction ds with
  | nil => rfl
  | cons d ds ih => cases d with | mk k r => simp [List.filterMap_cons, ih]

theorem combineList_eq (rs : List Res) :
    combineList rs =
      if rs.all isOkB then Res.ok (.list (rs.filterMap okValue))
      else .fail (InvalidField none [] (rs.filterMap errOf)) := by
  rw [combineList]
  simp only [← filterMap_errOf_isEmpty]

theorem combineDict_eq (ds : List (String × Res)) :
    combineDict ds =
      if (ds.map Prod.snd).all isOkB then
        Res.ok (.dict (ds.filterMap (fun kr => (okValue kr.2).map (fun v => (kr.1, v)))))
      else .fail (InvalidField none [] ((ds.map Prod.snd).filterMap errOf)) := by
  rw [combineDict]
  simp only [snd_filterMap_errOf, ← filterMap_errOf_isEmpty]

theorem combineList_isOk (rs : List Res) : isOkB (combineList rs) = rs.all isOkB := by
  rw [combineList_eq]
  cases h : rs.all isOkB <;> simp [h, isOkB]

theorem combineDict_isOk (ds : List (String × Res)) :
    isOkB (combineDict ds) = (ds.map Prod.snd).all isOkB := by
  rw [combineDict_eq]
  cases h : (ds.map Prod.snd).all isOkB <;> simp [h, isOkB]

/-- C1: `combine` evaluates every element of a sequence or of a
string-keyed mapping of Results without short-circuiting; it returns `Ok`
iff every element is `Ok` (success values in original order for the list
form, keyed for the mapping form), and otherwise one `Fail` whose error has
code `"invalid_field"` and whose `errors` list is exactly the errors of the
failing elements in order, its length equal to the number of failing
elements. -/
theorem combine_aggregates_all_failures (rs : List Res) (ds : List (String × Res)) :
    (isOkB (combineList rs) = rs.all isOkB)
    ∧ (combineList rs =
        if rs.all isOkB then .ok (.list (rs.filterMap okValue))
        else .fail (InvalidField none [] (rs.filterMap errOf)))
    ∧ ((rs.filterMap errOf).length = rs.countP (fun r => !isOkB r))
    ∧ (Error.code (InvalidField none [] (rs.filterMap errOf)) = "invalid_field")
    ∧ (isOkB (combineDict ds) = (ds.map Prod.snd).all isOkB)
    ∧ (combineDict ds =
        if (ds.map Prod.snd).all isOkB then
          .ok (.dict (ds.filterMap (fun kr => (okValue kr.2).map (fun v => (kr.1, v)))))
        else .fail (InvalidField none [] ((ds.map Prod.snd).filterMap errOf)))
    ∧ (((ds.map Prod.snd).filterMap errOf).length =
        (ds.map Prod.snd).countP (fun r => !isOkB r)) :=
  ⟨combineList_isOk rs, combineList_eq rs, filterMap_errOf_length rs, rfl,
   combineDict_isOk ds, combineDict_eq ds, filterMap_errOf_length (ds.map Prod.snd)⟩

/-! ## Schema construction engine, single field
(`_SchemaItem` in `src/skoll/domain/base.py`)

`_SchemaItem._create` dispatches on the field's target type: a type
exposing `create` is recursed into (the `field` argument is then unused!);
otherwise a `type_checkers` entry for `bool`/`str`/`int`/`float` is
consulted, and a type with no checker accepts the raw value unchanged. -/

inductive PrimType where
  | bool
  | int
  | float
  | str

/-- `self.cls.__name__` for the four checked primitive types. -/
def primName : PrimType → String
  | .bool => "bool"
  | .int => "int"
  | .float => "float"
  | .str => "str"

inductive SClass where
  | withCreate : (Value → Res) → SClass
  | prim : PrimType → SClass
  | other : SClass

/-- An attrs field default: absent (`attrs.NOTHING`), a plain value, or a
`Factory(factory, takes_self)`. -/
inductive DefaultV where
  | nothing : DefaultV
  | value : Value → DefaultV
  | factory : (Unit → Value) → Bool → DefaultV

/-- Numeric view of a value: Python treats `bool` as an `int` subtype, so
`True`/`False` act as `1`/`0`; floats are integral in this model. -/
def numVal : Value → Option Int
  | .bool b => some (if b then 1 else 0)
  | .int n => some n
  | .float q => some q
  | _ => none

/-- Python `==` restricted to the shapes the checkers compare: strings
compare by content, numbers (including booleans) by numeric value, and
everything else is unequal. -/
def pyEq (a b : Value) : Bool :=
  match a, b with
  | .str s, .str t => s == t
  | _, _ =>
      match numVal a, numVal b with
      | some m, some n => m == n
      | _, _ => false

/-- Python truthiness, `bool(x)`.  Note `bool("False") = True`: any
non-empty string is truthy. -/
def pyBool : Value → Bool
  | .null => false
  | .bool b => b
  | .int n => n != 0
  | .float q => q != 0
  | .str s => s != ""
  | .list xs => !xs.isEmpty
  | .dict kvs => !kvs.isEmpty

/-- `str(x)` for the values the pipeline coerces (floats are integral in
this model; the list/dict arms are never reached by a passing checker). -/
def pyStr : Value → String
  | .str s => s
  | .bool b => if b then "True" else "False"
  | .int n => toString n
  | .float q => toString q ++ ".0"
  | .null => "None"
  | .list _ => "<list>"
  | .dict _ => "<dict>"

/-- The `type_checkers` table of `_SchemaItem._create`:
`bool`: `x in ["True", "False", True, False]` (membership via Python `==`,
so `1`/`0` also match `True`/`False`);
`str`: `isinstance(x, (str, float, int))` (booleans are ints);
`int`: `isinstance(x, (int, float))`;
`float`: `isinstance(x, (float, int))`. -/
def primCheck : PrimType → Value → Bool
  | .bool, x => pyEq x (.str "True") || pyEq x (.str "False") ||
      pyEq x (.bool true) || pyEq x (.bool false)
  | .str, x =>
      match x with
      | .str _ => true
      | .float _ => true
      | .int _ => true
      | .bool _ => true
      | _ => false
  | .int, x =>
      match x with
      | .int _ => true
      | .float _ => true
      | .bool _ => true
      | _ => false
  | .float, x =>
      match x with
      | .float _ => true
      | .int _ => true
      | .bool _ => true
      | _ => false

/-- `self.cls(raw)`: constructor coercion applied when the checker
passed.  `int`/`float` take the numeric value (floats are integral here),
`str` takes `str(raw)`, and `bool` is Python truthiness. -/
def primCoerce : PrimType → Value → Value
  | .bool, x => .bool (pyBool x)
  | .int, x => .int ((numVal x).getD 0)
  | .float, x => .float ((numVal x).getD 0)
  | .str, x => .str (pyStr x)

structure SchemaItem where
  key : String
  cls : SClass
  is_list : Bool
  optional : Bool
  default : DefaultV

/-- `_SchemaItem._create(raw, field)`.  `field = field or self.key` (an
empty string is falsy in Python).  A target type exposing `create` is
recursed into — the indexed `field` argument is dropped on that path;
a type with no checker accepts `raw` unchanged; a checked primitive either
coerces or fails `InvalidField` with `{expected, received}` hints. -/
def SchemaItem.subCreate (item : SchemaItem) (raw : Value) (fld : Option String) : Res :=
  let f := match fld with
    | some s => if s = "" then item.key else s
    | none => item.key
  match item.cls with
  | .withCreate create => create raw
  | .other => .ok raw
  | .prim p =>
      if primCheck p raw then .ok (primCoerce p raw)
      else .fail (InvalidField (some f) [("expected", .str (primName p)), ("received", raw)] [])

/-- The per-element results of a list-valued field: element `idx` is
validated via `_create` with the indexed field path `key[idx]`. -/
def elementResults (item : SchemaItem) (xs : List Value) : List Res :=
  xs.enum.map (fun p => item.subCreate p.2 (some (item.key ++ "[" ++ toString p.1 ++ "]")))

/-- The tail of `_SchemaItem.create` after the default-substitution block:
optional/missing handling, the list branch (aggregate via `combine`, then
`res.err.field = self.key` on failure), and the scalar branch. -/
def SchemaItem.createRest (item : SchemaItem) (rawItem : Value) : Res :=
  if isNull rawItem then
    if item.optional then .ok .null else .fail (MissingField (some item.key))
  else
    match item.is_list, rawItem with
    | true, .list xs =>
        (match combineList (elementResults item xs) with
         | .fail e => .fail (e.setField (some item.key))
         | r => r)
    | true, _ => .fail (InvalidField (some item.key) [] [])
    | false, _ => item.subCreate rawItem none

/-- `_SchemaItem.create(raw)`: extract the raw sub-value by key (a
non-dict input is passed through whole), substitute a declared default when
the sub-value is `None` (plain values directly, factories lazily;
a `takes_self` factory is skipped), then hand over to the remaining
checks. -/
def SchemaItem.create (item : SchemaItem) (raw : Value) : Res :=
  let rawItem := match raw with
    | .dict kvs => dictGet kvs item.key
    | _ => raw
  if isNull rawItem then
    match item.default with
    | .value v => .ok v
    | .factory f takesSelf => if takesSelf then item.createRest rawItem else .ok (f ())
    | .nothing => item.createRest rawItem
  else item.createRest rawItem

/-- A list-element target type whose `create` fails with its own field
tag, as `Enum.create` and `Object.create` do. -/
def c2ElemCreate : Value → Res := fun _ => .fail (InvalidField (some "inner") [] [])

def c2Item : SchemaItem := ⟨"xs", .withCreate c2ElemCreate, true, false, .nothing⟩

def c2Raw : Value := .dict [("xs", .list [.null])]

/-- C2 counterexample: for a list field whose element type exposes
`create`, the failing element's error is tagged with the tag that `create`
itself assigns (here `"inner"`), not with the indexed path `"xs[0]"`:
`_create` ignores its `field` argument on the `create` path, so element
errors are not, in general, tagged `key[idx]`. -/
theorem list_element_error_keeps_create_tag :
    SchemaItem.create c2Item c2Raw =
      .fail (InvalidField (some "xs") [] [InvalidField (some "inner") [] []])
    ∧ Error.field (InvalidField (some "inner") [] []) ≠ some "xs[0]" :=
  ⟨rfl, by decide⟩

/-- C2 (amended): for a list-valued field the engine validates each
element via `_create` with the indexed path `key[idx]` (which tags the
element error only when the element type has no `create` of its own),
aggregates the per-element results via `combine`, and on any element
failure re-tags the aggregate error's field to the outer key while
preserving the nested error list; materializing a primitive-element list
field where exactly one of three elements is invalid yields exactly one
aggregated error whose field is the outer key and whose nested error list
has length 1, its entry tagged with the failing index. -/
theorem list_field_aggregate_retag (item : SchemaItem) (xs : List Value)
    (hl : item.is_list = true) :
    (∀ e, combineList (elementResults item xs) = .fail e →
        item.create (.dict [(item.key, .list xs)]) = .fail (e.setField (some item.key)))
    ∧ (∀ v, combineList (elementResults item xs) = .ok v →
        item.create (.dict [(item.key, .list xs)]) = .ok v)
    ∧ (SchemaItem.create ⟨"nums", .prim .int, true, false, .nothing⟩
        (.dict [("nums", .list [.int 1, .str "bad", .int 3])]) =
      .fail (InvalidField (some "nums") []
        [InvalidField (some "nums[1]") [("expected", .str "int"), ("received", .str "bad")] []])) := by
  have hraw : dictGet [(item.key, Value.list xs)] item.key = .list xs := by
    simp [dictGet]
  refine ⟨fun e he => ?_, fun v hv => ?_, rfl⟩
  · rw [SchemaItem.create, hraw]
    simp only [isNull, if_false, Bool.false_eq_true]
    rw [SchemaItem.createRest]
    simp only [isNull, Bool.false_eq_true, if_false, hl, he]
    exact hl
  · rw [SchemaItem.create, hraw]
    simp only [isNull, if_false, Bool.false_eq_true]
    rw [SchemaItem.createRest]
    simp only [isNull, Bool.false_eq_true, if_false, hl, hv]
    exact hl

def c8IntItem : SchemaItem := ⟨"n", .prim .int, false, false, .nothing⟩

/-- C8 counterexample: the `int` checker is `isinstance(x, (int, float))`,
so a numeric string such as `"42"` is rejected with `InvalidField`, while
the claim says numeric types accept numeric strings with coercion. -/
theorem numeric_string_rejected :
    SchemaItem.create c8IntItem (.dict [("n", .str "42")]) =
      .fail (InvalidField (some "n") [("expected", .str "int"), ("received", .str "42")] [])
    ∧ isOkB (SchemaItem.create c8IntItem (.dict [("n", .str "42")])) = false :=
  ⟨rfl, rfl⟩

/-- C8 (amended): the primitive type check accepts, for `bool`, the
booleans and the strings `"True"`/`"False"` (and nothing else among
strings); for `int` and `float`, numeric values (ints, floats, booleans)
with constructor coercion to the target type, but not numeric strings; for
`str`, strings, ints and floats; and on mismatch it fails `InvalidField`
with hints `{expected: the type name, received: the raw value}`. -/
theorem primitive_type_check_amended :
    ((∀ b : Bool, primCheck .bool (.bool b) = true)
      ∧ primCheck .bool (.str "True") = true
      ∧ primCheck .bool (.str "False") = true
      ∧ (∀ n : Int, primCheck .int (.int n) = true ∧ primCheck .float (.int n) = true
          ∧ primCheck .str (.int n) = true)
      ∧ (∀ q : Int, primCheck .int (.float q) = true ∧ primCheck .float (.float q) = true
          ∧ primCheck .str (.float q) = true)
      ∧ (∀ s : String, primCheck .int (.str s) = false ∧ primCheck .float (.str s) = false)
      ∧ (∀ s : String, primCheck .str (.str s) = true)
      ∧ (∀ q : Int, SchemaItem.subCreate ⟨"k", .prim .int, false, false, .nothing⟩
          (.float q) none = .ok (.int q)))
    ∧ (∀ s : String, s ≠ "True" → s ≠ "False" → primCheck .bool (.str s) = false)
    ∧ (∀ p v, primCheck p v = true →
        SchemaItem.subCreate ⟨"k", .prim p, false, false, .nothing⟩ v none =
          .ok (primCoerce p v))
    ∧ (∀ p v, primCheck p v = false →
        SchemaItem.subCreate ⟨"k", .prim p, false, false, .nothing⟩ v none =
          .fail (InvalidField (some "k") [("expected", .str (primName p)), ("received", v)] [])) := by
  refine ⟨⟨fun b => by cases b <;> rfl, rfl, rfl, fun n => ⟨rfl, rfl, rfl⟩,
      fun q => ⟨rfl, rfl, rfl⟩, fun s => ⟨rfl, rfl⟩, fun s => rfl, fun q => rfl⟩,
    fun s h1 h2 => ?_, fun p v h => ?_, fun p v h => ?_⟩
  · simp [primCheck, pyEq, numVal, h1, h2]
  · rw [SchemaItem.subCreate]
    simp [h]
  · rw [SchemaItem.subCreate]
    simp [h]

/-- Discharges the conditional parts of the amended C8 theorem at concrete
inputs: `"yes"` is not a boolean string, `7` passes the `str` checker and
coerces to `"7"`, and `None` fails the `int` checker with the documented
hints. -/
theorem primitive_type_check_amended_witness :
    primCheck .bool (.str "yes") = false
    ∧ SchemaItem.subCreate ⟨"k", .prim .str, false, false, .nothing⟩ (.int 7) none =
        .ok (.str "7")
    ∧ SchemaItem.subCreate ⟨"k", .prim .int, false, false, .nothing⟩ .null none =
        .fail (InvalidField (some "k") [("expected", .str "int"), ("received", .null)] []) :=
  ⟨primitive_type_check_amended.2.1 "yes" (by decide) (by decide),
   primitive_type_check_amended.2.2.1 .str (.int 7) rfl,
   primitive_type_check_amended.2.2.2 .int .null rfl⟩

/-- Discharges the list-field hypothesis of the amended C2 theorem at a
concrete item: one failing element out of two is re-tagged to the outer
key. -/
theorem list_field_aggregate_retag_witness :
    SchemaItem.create ⟨"ys", .prim .bool, true, false, .nothing⟩
        (.dict [("ys", .list [.bool true, .int 5])]) =
      .fail ((InvalidField none []
        [InvalidField (some "ys[1]") [("expected", .str "bool"), ("received", .int 5)] []]).setField
          (some "ys")) :=
  (list_field_aggregate_retag ⟨"ys", .prim .bool, true, false, .nothing⟩
      [.bool true, .int 5] rfl).1
    (InvalidField none []
      [InvalidField (some "ys[1]") [("expected", .str "bool"), ("received", .int 5)] []])
    rfl

def c9Item : SchemaItem := ⟨"xs", .prim .int, true, false, .nothing⟩

def c9Raw : Value := .dict [("xs", .list [.str "a"])]

/-- The aggregate error exactly as `combine` constructs it: its `field` is
`None` at construction time. -/
def c9Aggregate : Error :=
  InvalidField none [] [InvalidField (some "xs[0]") [("expected", .str "int"), ("received", .str "a")] []]

/-- C9 evidence: `combine` constructs the aggregate error with
`field = None`, and the list branch of `_SchemaItem.create` then changes
that already-constructed error's `field` to the outer key — in the source
this is the in-place assignment `res.err.field = self.key`
(`src/skoll/domain/base.py` line 117), performed on the `Error` object
`combine` returned, contradicting the never-mutated-after-creation
ownership rule. -/
theorem aggregate_error_field_retagged :
    combineList (elementResults c9Item [.str "a"]) = .fail c9Aggregate
    ∧ Error.field c9Aggregate = none
    ∧ SchemaItem.create c9Item c9Raw = .fail (c9Aggregate.setField (some "xs"))
    ∧ Error.field (c9Aggregate.setField (some "xs")) = some "xs" :=
  ⟨rfl, rfl, rfl, rfl⟩

/-! ## Message identity (`Message` in `src/skoll/domain/message.py` and
`src/skoll/domain/messaging.py`)

`__eq__` first checks `isinstance(other, self.__class__)` (both sides here
are plain `Message` values) and then compares `__hash__`, which is
`hash(self.id.serialize())`.  Python's string hash is modelled as the
serialized id string itself: equal strings hash equal, and distinct id
strings are treated as hashing apart. -/

structure MessageD where
  name : String
  source : String
  id : String
  created_at : Int
  payload : Value
  context : Value

/-- `Message.__hash__`: `hash(self.id.serialize())`. -/
def msgHash (m : MessageD) : String := m.id

/-- `Message.__eq__` between two `Message` values. -/
def msgEq (a b : MessageD) : Bool := msgHash a == msgHash b

/-- C7: message equality is determined by `id` alone — two messages are
equal iff they carry the same id, independently of name, source, payload,
creation time, or context. -/
theorem message_equality_by_id_only (a b : MessageD) :
    (msgEq a b = true ↔ a.id = b.id)
    ∧ (∀ (i : String) (n1 s1 n2 s2 : String) (c1 c2 : Int) (p1 x1 p2 x2 : Value),
        msgEq ⟨n1, s1, i, c1, p1, x1⟩ ⟨n2, s2, i, c2, p2, x2⟩ = true) := by
  constructor
  · simp [msgEq, msgHash]
  · intro i n1 s1 n2 s2 c1 c2 p1 x1 p2 x2
    simp [msgEq, msgHash]

/-! ## `Object.create` and `Message.from_raw`

`Object.create` (`src/skoll/domain/base.py` lines 62-79) is embedded with
its exception path explicit, because its composite success path executes
`cls._init(**res.value)`: `_init(cls, value)` accepts a single `value`
parameter (and performs the dict spread itself, `cls(**value)`), so
spreading the combined field dict raises `TypeError` whenever a composite
type's fields all validate. -/

/-- `Object._init(value)`: a dict is spread into the class constructor,
anything else becomes the sole `value` field; a constructed instance is
represented by its field assignment. -/
def initObject : Value → Res
  | .dict kvs => .ok (.dict kvs)
  | v => .ok (.dict [("value", v)])

/-- `cls._init(**kwargs)` for the signature `_init(cls, value)`: the
keyword spread binds only a sole `value` key; any other key raises
`TypeError` (an unexpected keyword argument), and an empty spread raises
`TypeError` (the required `value` argument is missing). -/
def callInitKw (kvs : List (String × Value)) : Except PyExc Res :=
  match kvs.find? (fun kv => kv.1 != "value") with
  | some kv =>
      .error (.typeError ("_init() got an unexpected keyword argument " ++ kv.1))
  | none =>
      match kvs with
      | [kv] => .ok (initObject kv.2)
      | [] => .error (.typeError "_init() missing 1 required positional argument: value")
      | _ => .error (.typeError "_init() got multiple values for argument value")

/-- A value-object class as `Object.create` sees it: its `prepare` hook,
the field schema `get_schema` derives (`none` for leaf types), and its
`__name__` (note `to_snake_case` maps only dicts and lists, so the class
name string reaches the `MissingField` tag unchanged). -/
structure ObjectSpec where
  prepare : Value → Res
  schema : Option (List (String × SchemaItem))
  name : String

/-- `Object.create(raw)`: `None` fails `MissingField` tagged with the
class name; `prepare` failures short-circuit; a schema-less (leaf) type
takes `cls._init(prepare_result.value)`; a composite type validates each
declared field against the prepared input, combines by key, propagates a
combined failure, and on success executes `cls._init(**res.value)` — the
keyword spread of the combined field dict into `_init`'s single `value`
parameter. -/
def objectCreate (spec : ObjectSpec) (raw : Value) : Except PyExc Res :=
  if isNull raw then .ok (.fail (MissingField (some spec.name)))
  else
    match spec.prepare raw with
    | .fail e => .ok (.fail e)
    | .ok prepared =>
        match spec.schema with
        | none => .ok (initObject prepared)
        | some schema =>
            match combineDict (schema.map (fun ks => (ks.1, SchemaItem.create ks.2 prepared))) with
            | .fail e => .ok (.fail e)
            | .ok (.dict kvs) => callInitKw kvs
            | .ok _ => .error (.typeError "argument after ** must be a mapping")

/-- `Message.from_raw(raw)`: `res = cls.create(raw); return res.value if
is_ok(res) else None`.  `from_raw` installs no exception handler, so an
exception raised inside `create` propagates to the caller. -/
def fromRaw (create : Value → Except PyExc Res) (raw : Value) :
    Except PyExc (Option Value) :=
  match create raw with
  | .error exc => .error exc
  | .ok (.ok v) => .ok (some v)
  | .ok (.fail _) => .ok none

/-- The field schema `get_schema` derives for `Message`
(`src/skoll/domain/message.py`): `name` and `source` are required `str`
primitives; `id`, `created_at`, `payload` and `context` are
create-exposing types with `attrs` factory defaults (`takes_self=False`).
Their create functions and factory values are parameters — the C10
theorem holds for all of them. -/
def messageSchema (idC dtC pC cC : Value → Res) (idV dtV pV cV : Value) :
    List (String × SchemaItem) :=
  [("name", ⟨"name", .prim .str, false, false, .nothing⟩),
   ("source", ⟨"source", .prim .str, false, false, .nothing⟩),
   ("id", ⟨"id", .withCreate idC, false, false, .factory (fun _ => idV) false⟩),
   ("created_at", ⟨"created_at", .withCreate dtC, false, false, .factory (fun _ => dtV) false⟩),
   ("payload", ⟨"payload", .withCreate pC, false, false, .factory (fun _ => pV) false⟩),
   ("context", ⟨"context", .withCreate cC, false, false, .factory (fun _ => cV) false⟩)]

/-- `Message` as `Object.create` sees it: the inherited identity
`prepare`, the composite schema above, and the class name. -/
def messageSpec (idC dtC pC cC : Value → Res) (idV dtV pV cV : Value) : ObjectSpec :=
  ⟨fun raw => .ok raw, some (messageSchema idC dtC pC cC idV dtV pV cV), "Message"⟩

/-- A raw mapping on which every declared `Message` field validates:
`name` and `source` are present strings and the remaining fields take
their declared factory defaults. -/
def validMsgRaw : Value := .dict [("name", .str "user.get"), ("source", .str "test")]

/-- C10: on a raw mapping where every field of the composite `Message`
validates, per-field validation combines to `Ok`, but `create` then
raises `TypeError` at `cls._init(**res.value)` (base.py line 79) instead
of returning the constructed message, and `from_raw` — which installs no
handler — propagates that exception; so `from_raw` raises on exactly the
inputs the claim says it returns a `Message` for.  The failure half of the
claim does hold: on a mapping with an invalid/missing field, `create`
returns `Fail` and `from_raw` returns `None`, discarding the error. -/
theorem from_raw_raises_on_successful_validation
    (idC dtC pC cC : Value → Res) (idV dtV pV cV : Value) :
    (combineDict ((messageSchema idC dtC pC cC idV dtV pV cV).map
        (fun ks => (ks.1, SchemaItem.create ks.2 validMsgRaw)))
      = .ok (.dict [("name", .str "user.get"), ("source", .str "test"),
          ("id", idV), ("created_at", dtV), ("payload", pV), ("context", cV)]))
    ∧ (objectCreate (messageSpec idC dtC pC cC idV dtV pV cV) validMsgRaw
        = .error (.typeError "_init() got an unexpected keyword argument name"))
    ∧ (fromRaw (objectCreate (messageSpec idC dtC pC cC idV dtV pV cV)) validMsgRaw
        = .error (.typeError "_init() got an unexpected keyword argument name"))
    ∧ (fromRaw (objectCreate (messageSpec idC dtC pC cC idV dtV pV cV))
          (.dict [("name", .str "x")])
        = .ok none) :=
  ⟨rfl, rfl, rfl, rfl⟩

/-! ## Completion policy of `wrap_callback` (`src/skoll/nats.py`)

After `run_callback` produces a `Result`, a reply-mode subscriber always
sends the envelope `{"data": result.value if is_ok(result) else None,
"error": result.err.serialize() if not is_ok(result) else None}`; only
stream-bound non-reply subscribers ack/nak. -/

inductive TransportEffect where
  | respond : Value → TransportEffect
  | ack : TransportEffect
  | nak : Nat → TransportEffect
  | noop : TransportEffect

def replyEnvelope (result : Res) : Value :=
  .dict [("data", match result with | .ok v => v | .fail _ => .null),
         ("error", match result with | .ok _ => .null | .fail e => e.serialize)]

def completionEffect (willReply : Bool) (jsStream : Option String) (result : Res) :
    TransportEffect :=
  if willReply then .respond (replyEnvelope result)
  else
    match jsStream with
    | some _ => if isOkB result then .ack else .nak 5
    | none => .noop

/-- C6 counterexample: a handler returning `ok(None)` yields a reply
envelope in which `data` and `error` are both null, so it is not the case
that exactly one of the two is non-null with `data` non-null on every
`Ok`. -/
theorem reply_envelope_both_null_on_ok_none :
    completionEffect true none (.ok .null) =
      .respond (.dict [("data", .null), ("error", .null)]) :=
  rfl

/-- C6 (amended): in reply mode the envelope `{data, error}` is always
sent and no ack/nak is issued regardless of outcome; `error` is null iff
the Result is `Ok`; on `Ok` the `data` field is the handler's success
value — which may itself be null, in which case both fields are null — and
on `Fail` `data` is null and `error` is the serialized error, which is
always a JSON object (never null). -/
theorem reply_envelope_amended :
    (∀ (js : Option String) (r : Res), completionEffect true js r = .respond (replyEnvelope r))
    ∧ (∀ v, replyEnvelope (.ok v) = .dict [("data", v), ("error", .null)])
    ∧ (∀ e, replyEnvelope (.fail e) = .dict [("data", .null), ("error", e.serialize)])
    ∧ (∀ e : Error, ∃ kvs, Error.serialize e = .dict kvs) := by
  refine ⟨fun js r => rfl, fun v => rfl, fun e => rfl, fun e => ?_⟩
  cases e with
  | mk c f s d errs h dbg => exact ⟨_, rfl⟩

/-! ## Dependency resolution engine (`src/skoll/utils/dep_injection.py`)

Callables are identified by `FnId` (Python dict keys by callable
identity).  `env` gives each callable's declared signature — parameter
name, an optional `Annotated[..., Depend(call)]` marker, an optional
static default — and whether invoking it produces a scoped resource (an
async generator entered through the resolution-wide `AsyncExitStack`).
The value a provider produces is given by an oracle `produce fn k kwargs`
where `k` is the number of times `fn` was invoked before, so a provider
that is invoked twice is free to return different values — caching, not
provider purity, is what makes sharing work.  Invocations and
scoped-resource releases are recorded in an event log. -/

abbrev FnId := Nat

inductive Event where
  | called : FnId → Event
  | released : FnId → Event
  deriving DecidableEq

structure Param where
  name : String
  dep : Option FnId
  default : Option Value

structure FnSpec where
  params : List Param
  scopedRes : Bool

/-- The mutable state of one `call_with_dependencies` invocation: the
per-resolution cache, the chronological event log, and the exit stack
(scoped resources in acquisition order). -/
structure DIState where
  cache : List (FnId × Value)
  log : List Event
  stack : List FnId

def cacheGet (c : List (FnId × Value)) (f : FnId) : Option Value :=
  (c.find? (fun kv => kv.1 == f)).map (fun kv => kv.2)

/-- `context.get(name)`, with an absent key giving `None`. -/
def ctxGet (ctx : List (String × Value)) (k : String) : Value :=
  match ctx.find? (fun kv => kv.1 == k) with
  | some kv => kv.2
  | none => .null

def countCalls (log : List Event) (f : FnId) : Nat := log.count (.called f)

/-- The parameter loop of `resolve`: explicit context values win (a
`None`-valued context entry counts as absent), then `Depend` markers are
resolved through `rf`, then static defaults; otherwise `TypeError`. -/
def resolveParamsAux
    (rf : FnId → List (String × Value) → DIState → (Except PyExc Value) × DIState)
    (ctx : List (String × Value)) :
    List Param → DIState → (Except PyExc (List (String × Value))) × DIState
  | [], st => (.ok [], st)
  | p :: ps, st =>
      let cont := fun (v : Value) (st1 : DIState) =>
        match resolveParamsAux rf ctx ps st1 with
        | (.ok rest, st2) => ((.ok ((p.name, v) :: rest) : Except PyExc _), st2)
        | (.error exc, st2) => ((.error exc : Except PyExc _), st2)
      match ctxGet ctx p.name with
      | .null =>
          match p.dep with
          | some g =>
              (match rf g ctx st with
               | (.ok v, st1) => cont v st1
               | (.error exc, st1) => ((.error exc : Except PyExc _), st1))
          | none =>
              match p.default with
              | some d => cont d st
              | none =>
                  ((.error (.typeError ("Unresolvable dependency parameter: " ++ p.name))
                    : Except PyExc _), st)
      | v => cont v st

/-- `resolve(fn, cache, context, exit_stack)` with `no_call=False`: a
cache hit returns the cached value without touching the provider;
otherwise the parameters are resolved, the provider is invoked (logged),
a scoped provider is entered on the exit stack, and the value is cached
under the callable.  Recursion depth is fueled; the claims instantiate
the fuel concretely. -/
def resolveFn (env : FnId → FnSpec) (produce : FnId → Nat → List (String × Value) → Value) :
    Nat → FnId → List (String × Value) → DIState → (Except PyExc Value) × DIState
  | 0, _, _, st => ((.error (.otherExc "recursion limit") : Except PyExc _), st)
  | fuel + 1, fn, ctx, st =>
      match cacheGet st.cache fn with
      | some v => ((.ok v : Except PyExc _), st)
      | none =>
          match resolveParamsAux (resolveFn env produce fuel) ctx (env fn).params st with
          | (.error exc, st1) => ((.error exc : Except PyExc _), st1)
          | (.ok kwargs, st1) =>
              let v := produce fn (countCalls st1.log fn) kwargs
              ((.ok v : Except PyExc _),
               ⟨(fn, v) :: st1.cache, st1.log ++ [.called fn],
                if (env fn).scopedRes then st1.stack ++ [fn] else st1.stack⟩)

/-- `AsyncExitStack.__aexit__`: entered resources are released in reverse
acquisition order. -/
def releasedEvents (stack : List FnId) : List Event :=
  stack.reverse.map Event.released

/-- `call_with_dependencies(fn, context)`: one fresh `AsyncExitStack` and
one fresh cache per invocation; the handler's parameters are resolved with
`no_call=True`, the handler runs on the bound kwargs, and the stack
unwinds when the `async with` scope exits — normally or exceptionally. -/
def callWithDependencies {A : Type} (fuel : Nat) (env : FnId → FnSpec)
    (produce : FnId → Nat → List (String × Value) → Value) (handler : FnId)
    (run : List (String × Value) → Except PyExc A)
    (ctx : List (String × Value)) : (Except PyExc A) × List Event :=
  match resolveParamsAux (resolveFn env produce fuel) ctx (env handler).params ⟨[], [], []⟩ with
  | (.error exc, st) => (.error exc, st.log ++ releasedEvents st.stack)
  | (.ok kwargs, st) => (run kwargs, st.log ++ [.called handler] ++ releasedEvents st.stack)

/-! ## Dispatch (`run_callback` / `get_message`,
`src/skoll/infras/mediator/utils.py` and `src/skoll/nats.py`) -/

/-- `get_message(cls, message)` on a raw message: materialize via the
subscriber's message type; a failure raises `ValidationFailed` carrying
the aggregate's sub-errors. -/
def getMessage (create : Value → Res) (raw : Value) : Except Error Value :=
  match create raw with
  | .fail e => .error (ValidationFailed e.errors)
  | .ok v => .ok v

/-- `message.get("name")` on the raw mapping. -/
def topicOf (raw : Value) : Value :=
  match raw with
  | .dict kvs => dictGet kvs "name"
  | _ => .null

/-- `run_callback(subscriber, message)` on a raw message: materialize,
then run the handler with its dependencies, converting a raised domain
`Error` to `Fail(err)` and any other exception to a `Fail` wrapping
`InternalError.from_exception(exc, extra={"subject": topic, "message":
message})`. -/
def runCallback (fuel : Nat) (env : FnId → FnSpec)
    (produce : FnId → Nat → List (String × Value) → Value)
    (msgCreate : Value → Res) (handler : FnId)
    (run : List (String × Value) → Except PyExc Res) (msgArg : String)
    (raw : Value) : Res × List Event :=
  match getMessage msgCreate raw with
  | .error e => (.fail e, [])
  | .ok msg =>
      match callWithDependencies fuel env produce handler run [(msgArg, msg)] with
      | (.ok r, log) => (r, log)
      | (.error (.domainError e), log) => (.fail e, log)
      | (.error (.typeError m), log) =>
          (.fail (InternalErrorFrom m [("subject", topicOf raw), ("message", raw)]), log)
      | (.error (.otherExc m), log) =>
          (.fail (InternalErrorFrom m [("subject", topicOf raw), ("message", raw)]), log)

/-- C3: when materialization of the inbound raw message fails, the
dispatch result is a `Fail` carrying a `ValidationFailed` error whose
sub-errors are the materialization failure's aggregated sub-errors, and
the handler is never invoked (the event log stays empty). -/
theorem materialization_failure_short_circuits (fuel : Nat) (env : FnId → FnSpec)
    (produce : FnId → Nat → List (String × Value) → Value) (msgCreate : Value → Res)
    (handler : FnId) (run : List (String × Value) → Except PyExc Res) (msgArg : String)
    (raw : Value) (e : Error) (h : msgCreate raw = .fail e) :
    runCallback fuel env produce msgCreate handler run msgArg raw
      = (.fail (ValidationFailed e.errors), [])
    ∧ Error.code (ValidationFailed e.errors) = "validation_failed"
    ∧ Error.errors (ValidationFailed e.errors) = e.errors
    ∧ Event.called handler ∉ (runCallback fuel env produce msgCreate handler run msgArg raw).2 := by
  have h1 : runCallback fuel env produce msgCreate handler run msgArg raw
      = (.fail (ValidationFailed e.errors), []) := by
    rw [runCallback, getMessage, h]
  exact ⟨h1, rfl, rfl, by rw [h1]; simp⟩

/-- Discharges the C3 hypothesis at a concrete input: a message type whose
`create` fails with a `MissingField` aggregate. -/
theorem materialization_failure_short_circuits_witness :
    runCallback 3 (fun _ => ⟨[], false⟩) (fun _ _ _ => .null)
        (fun _ => .fail (InvalidField none [] [MissingField (some "id")])) 0
        (fun _ => .ok (.ok .null)) "msg" (.dict [])
      = (.fail (ValidationFailed [MissingField (some "id")]), []) :=
  (materialization_failure_short_circuits 3 (fun _ => ⟨[], false⟩) (fun _ _ _ => .null)
    (fun _ => .fail (InvalidField none [] [MissingField (some "id")])) 0
    (fun _ => .ok (.ok .null)) "msg" (.dict [])
    (InvalidField none [] [MissingField (some "id")]) rfl).1

/-- A handler whose two parameters both depend on provider `1`. -/
def c4Env (a b : String) : FnId → FnSpec :=
  fun f => if f = 0 then ⟨[⟨a, some 1, none⟩, ⟨b, some 1, none⟩], false⟩ else ⟨[], false⟩

/-- A handler whose three parameters all depend on provider `1`. -/
def c4EnvThree (a b c : String) : FnId → FnSpec :=
  fun f =>
    if f = 0 then ⟨[⟨a, some 1, none⟩, ⟨b, some 1, none⟩, ⟨c, some 1, none⟩], false⟩
    else ⟨[], false⟩

/-- C4: when two (or three) handler parameters depend on the same provider
callable, one `call_with_dependencies` invocation executes that provider
exactly once — the per-invocation cache is keyed by callable identity —
and every dependent parameter is bound to the same cached value
`produce 1 0 []` (the provider's first and only invocation), for every
provider behaviour `produce`. -/
theorem shared_provider_invoked_once (a b c : String) (hab : a ≠ b)
    (produce : FnId → Nat → List (String × Value) → Value) :
    (callWithDependencies 9 (c4Env a b) produce 0
        (fun kwargs => (.ok (Value.dict kwargs) : Except PyExc Value)) []
      = (.ok (.dict [(a, produce 1 0 []), (b, produce 1 0 [])]), [.called 1, .called 0]))
    ∧ ((callWithDependencies 9 (c4Env a b) produce 0
        (fun kwargs => (.ok (Value.dict kwargs) : Except PyExc Value)) []).2.count
          (Event.called 1) = 1)
    ∧ (callWithDependencies 9 (c4EnvThree a b c) produce 0
        (fun kwargs => (.ok (Value.dict kwargs) : Except PyExc Value)) []
      = (.ok (.dict [(a, produce 1 0 []), (b, produce 1 0 []), (c, produce 1 0 [])]),
         [.called 1, .called 0]))
    ∧ ((callWithDependencies 9 (c4EnvThree a b c) produce 0
        (fun kwargs => (.ok (Value.dict kwargs) : Except PyExc Value)) []).2.count
          (Event.called 1) = 1) :=
  ⟨rfl, rfl, rfl, rfl⟩

/-- Discharges the distinct-parameter-names hypothesis of the C4 theorem
at concrete names and a concrete provider. -/
theorem shared_provider_invoked_once_witness :
    callWithDependencies 9 (c4Env "x" "y") (fun _ _ _ => .int 5) 0
        (fun kwargs => (.ok (Value.dict kwargs) : Except PyExc Value)) []
      = (.ok (.dict [("x", .int 5), ("y", .int 5)]), [.called 1, .called 0]) :=
  (shared_provider_invoked_once "x" "y" "z" (by decide) (fun _ _ _ => .int 5)).1

/-- A handler whose two parameters depend on the scoped providers `1` and
`2`; every non-handler callable here is a scoped-resource generator. -/
def c5Env : FnId → FnSpec :=
  fun f => if f = 0 then ⟨[⟨"r1", some 1, none⟩, ⟨"r2", some 2, none⟩], false⟩ else ⟨[], true⟩

/-- C5: both scoped resources acquired during one
`call_with_dependencies` invocation (provider `1`, then provider `2`) are
released when the top-level scope exits, in strict reverse acquisition
order — release `2` then release `1` — whether the handler returns
normally, raises a domain error (the dispatch result is then `Fail` with
that error), or raises any other exception (the dispatch result is a
`Fail` wrapping `InternalError`). -/
theorem scoped_resources_released_in_reverse
    (produce : FnId → Nat → List (String × Value) → Value)
    (e : Error) (r : Res) (m : String) (raw : Value) :
    (runCallback 9 c5Env produce (fun v => .ok v) 0
        (fun _ => (.error (.domainError e) : Except PyExc Res)) "msg" raw
      = (.fail e, [.called 1, .called 2, .called 0, .released 2, .released 1]))
    ∧ (runCallback 9 c5Env produce (fun v => .ok v) 0
        (fun _ => (.ok r : Except PyExc Res)) "msg" raw
      = (r, [.called 1, .called 2, .called 0, .released 2, .released 1]))
    ∧ (runCallback 9 c5Env produce (fun v => .ok v) 0
        (fun _ => (.error (.otherExc m) : Except PyExc Res)) "msg" raw
      = (.fail (InternalErrorFrom m [("subject", topicOf raw), ("message", raw)]),
         [.called 1, .called 2, .called 0, .released 2, .released 1])) :=
  ⟨rfl, rfl, rfl⟩

end Skoll
